import Mathlib

/-!
Verification of the configuration-template resolver and the ClickHouse
check of this repository.

The template resolver (`ConfigTemplates` in
`datadog_checks/dev/tooling/configuration/template.py`) is not shipped in
this source snapshot; only its test suite is.  Its definitions below are
modelled from the specification (sections 3, 4, 6, 7 of `spec.md`), with
every observable behaviour pinned by the test suite
`tests/tooling/configuration/test_template.py`.

The ClickHouse check (`ClickhouseCheck.check`) and the test helper
`hash_password` are embedded directly from the source.
-/

/-- A parsed template tree node: a Mapping (string-keyed), a List of nodes
(addressed by their `name` field), or a Primitive (string, bool, int, null). -/
inductive Node where
  | mapping : List (String × Node) → Node
  | list : List Node → Node
  | str : String → Node
  | bool : Bool → Node
  | int : Int → Node
  | null : Node

/-- The runtime type label of a node, as Python `type(x).__name__` reports it
for values produced by `yaml.safe_load`. -/
def typeName : Node → String
  | .mapping _ => "dict"
  | .list _ => "list"
  | .str _ => "str"
  | .bool _ => "bool"
  | .int _ => "int"
  | .null => "NoneType"

/-- A node is a Primitive when it is neither a Mapping nor a List. -/
def isPrimitive : Node → Bool
  | .mapping _ => false
  | .list _ => false
  | _ => true

/-- Association-list lookup, the model of Python `dict` key access. -/
def alistLookup : List (String × Node) → String → Option Node
  | [], _ => none
  | (k, v) :: rest, key => if k = key then some v else alistLookup rest key

/-- Set a key of a Mapping: replace the value in place when the key exists,
append the pair otherwise (Python `d[k] = v`). -/
def setKey : List (String × Node) → String → Node → List (String × Node)
  | [], k, v => [(k, v)]
  | (k', v') :: rest, k, v =>
    if k' = k then (k, v) :: rest else (k', v') :: setKey rest k v

/-- Does the node carry `"name": seg`?  Model of
`isinstance(item, dict) and item.get('name') == key`. -/
def isNamed (seg : String) : Node → Bool
  | .mapping m =>
    match alistLookup m "name" with
    | some (.str n) => n = seg
    | _ => false
  | _ => false

/-- First element of a List whose `name` field equals the segment. -/
def findNamed (seg : String) : List Node → Option Node
  | [] => none
  | x :: rest => if isNamed seg x then some x else findNamed seg rest

/-- Index of the first element of a List whose `name` field equals the segment. -/
def findNamedIdx (seg : String) : List Node → Option Nat
  | [] => none
  | x :: rest => if isNamed seg x then some 0 else (findNamedIdx seg rest).map (· + 1)

/-- Split a list of characters at every dot. -/
def splitCharsOn : List Char → List Char → List (List Char)
  | [], acc => [acc.reverse]
  | c :: rest, acc =>
    if c = '.' then acc.reverse :: splitCharsOn rest [] else splitCharsOn rest (c :: acc)

/-- Model of Python `s.split('.')`: never returns an empty list. -/
def splitOnDot (s : String) : List String :=
  (splitCharsOn s.toList []).map (fun cs => String.mk cs)

/-- Model of Python `'.'.join(l)`. -/
def joinDot : List String → String
  | [] => ""
  | [x] => x
  | x :: xs => x ++ "." ++ joinDot xs

/-- The template resolver's error taxonomy (spec section 7).  The source
raises `ValueError` in every case; the constructors record the taxonomy and
the carried message string. -/
inductive TemplateError where
  | templateNotFound (message : String)
  | templateParse (message : String)
  | pathNotFound (message : String)
  | overrideNotFound (message : String)
deriving DecidableEq

/-- Modelled from the spec: path navigation (spec section 4.2) of
`ConfigTemplates.load`, whose implementation is absent from this snapshot.
`doc` is the document segment, `allB` the full branch chain, `consumed`
the branches already traversed.  Message shapes are pinned by
`TestLoadBranches` in `test_template.py`: a missing Mapping key names the
document and the full branch chain; a List or Primitive failure names the
dotted path consumed so far. -/
def resolveGo (doc : String) (allB : List String) :
    List String → Node → List String → Except TemplateError Node
  | _, node, [] => .ok node
  | consumed, .mapping m, seg :: rest =>
    match alistLookup m seg with
    | some child => resolveGo doc allB (consumed ++ [seg]) child rest
    | none =>
      .error (.pathNotFound
        ("Template `" ++ doc ++ "` has no element `" ++ joinDot allB ++ "`"))
  | consumed, .list items, seg :: rest =>
    match findNamed seg items with
    | some child => resolveGo doc allB (consumed ++ [seg]) child rest
    | none =>
      .error (.pathNotFound
        ("Template `" ++ joinDot (doc :: consumed) ++ "` has no named element `"
          ++ seg ++ "`"))
  | consumed, prim, _ :: _ =>
    .error (.pathNotFound
      ("Template `" ++ joinDot (doc :: consumed)
        ++ "` does not refer to a mapping, rather it is type `" ++ typeName prim ++ "`"))

/-- Modelled from the spec: navigate the branch chain of a loaded document. -/
def resolveDoc (doc : String) (node : Node) (branches : List String) :
    Except TemplateError Node :=
  resolveGo doc branches [] node branches

/-- The `OverrideNotFoundError` message for a List with no matching named
mapping: the root-level variant omits the path prefix (spec section 4.3). -/
def ovListMsg (consumed : List String) (seg : String) : String :=
  if consumed.isEmpty then
    "Template override has no named mapping `" ++ seg ++ "`"
  else
    "Template override `" ++ joinDot consumed ++ "` has no named mapping `" ++ seg ++ "`"

/-- The `OverrideNotFoundError` message for a Primitive reached with segments
remaining (spec section 4.3). -/
def ovPrimMsg (consumed : List String) : String :=
  "Template override `" ++ joinDot consumed ++ "` does not refer to a mapping"

/-- Modelled from the spec: apply one override path (spec section 4.3).
Mapping keys are created on demand (intermediate segments create empty
Mappings); List navigation requires a `name` match and the terminal segment
replaces the matched element wholesale at its index.  Message shapes pinned
by `TestLoadOverride` in `test_template.py`. -/
def applyGo (consumed : List String) : Node → List String → Node → Except TemplateError Node
  | node, [], _ => .ok node
  | .mapping m, [last], value => .ok (.mapping (setKey m last value))
  | .list items, [last], value =>
    match findNamedIdx last items with
    | some i => .ok (.list (items.set i value))
    | none => .error (.overrideNotFound (ovListMsg consumed last))
  | _, [_], _ => .error (.overrideNotFound (ovPrimMsg consumed))
  | .mapping m, seg :: rest, value =>
    match applyGo (consumed ++ [seg]) ((alistLookup m seg).getD (.mapping [])) rest value with
    | .ok newChild => .ok (.mapping (setKey m seg newChild))
    | .error e => .error e
  | .list items, seg :: rest, value =>
    match findNamedIdx seg items with
    | some i =>
      match applyGo (consumed ++ [seg]) (items.getD i .null) rest value with
      | .ok newChild => .ok (.list (items.set i newChild))
      | .error e => .error e
    | none => .error (.overrideNotFound (ovListMsg consumed seg))
  | _, _ :: _, _ => .error (.overrideNotFound (ovPrimMsg consumed))

/-- Modelled from the spec: apply every override of the specification, in
order, to the resolved subtree. -/
def apply_overrides : Node → List (String × Node) → Except TemplateError Node
  | node, [] => .ok node
  | node, (p, v) :: rest =>
    match applyGo [] node (splitOnDot p) v with
    | .ok node' => apply_overrides node' rest
    | .error e => .error e

/-- Resolved file path of a document inside one search directory
(`<dir>/<doc>.yaml`). -/
def tplFilePath (dir doc : String) : String := dir ++ "/" ++ doc ++ ".yaml"

/-- The storage world: a file path maps to `none` (no such file),
`some (.error ())` (present but not parseable into a mapping-rooted tree), or
`some (.ok node)` (present and parsed). -/
abbrev Storage := String → Option (Except Unit Node)

/-- Modelled from the spec: try the search directories in priority order and
return the first resolved path whose file exists, with its parse outcome. -/
def findTemplate (fs : Storage) (doc : String) : List String → Option (String × Except Unit Node)
  | [] => none
  | d :: rest =>
    match fs (tplFilePath d doc) with
    | some content => some (tplFilePath d doc, content)
    | none => findTemplate fs doc rest

/-- The built-in default template directory, consulted after every custom
directory. -/
def defaultTemplatesDir : String := "datadog_checks/dev/tooling/templates"

/-- Resolver state: search directories in priority order and the cache of
parsed documents keyed by document name. -/
structure ConfigTemplates where
  paths : List String
  templates : List (String × Node)

/-- Modelled from the spec: `ConfigTemplates(paths)` puts caller-supplied
custom directories before the built-in default directory, with an empty cache. -/
def mkConfigTemplates (userPaths : List String) : ConfigTemplates :=
  ⟨userPaths ++ [defaultTemplatesDir], []⟩

/-- Navigate the branches of a loaded document, then apply the overrides to
the resolved subtree. -/
def loadResolve (doc : String) (node : Node) (branches : List String)
    (overrides : List (String × Node)) : Except TemplateError Node :=
  match resolveDoc doc node branches with
  | .ok sub => apply_overrides sub overrides
  | .error e => .error e

/-- Modelled from the spec: `ConfigTemplates.load` (spec sections 4.1, 4.2,
4.3 and 6), whose implementation is absent from this snapshot.  The first
dotted segment names the document; the cache is consulted before storage;
on a cache miss the search directories are tried in order; branch navigation
and override application act on the parsed document.  Returns the result
together with the updated resolver state. -/
def load (ct : ConfigTemplates) (fs : Storage) (template : String)
    (overrides : List (String × Node)) : Except TemplateError Node × ConfigTemplates :=
  match splitOnDot template with
  | [] => (.error (.templateNotFound "Template `` does not exist"), ct)
  | doc :: branches =>
    match alistLookup ct.templates doc with
    | some node => (loadResolve doc node branches overrides, ct)
    | none =>
      match findTemplate fs doc ct.paths with
      | none =>
        (.error (.templateNotFound ("Template `" ++ doc ++ "` does not exist")), ct)
      | some (fp, .error _) =>
        (.error (.templateParse ("Unable to parse template `" ++ fp ++ "`")), ct)
      | some (_, .ok node) =>
        (loadResolve doc node branches overrides,
          { ct with templates := (doc, node) :: ct.templates })

/-!
ClickHouse check, embedded from
`clickhouse/datadog_checks/clickhouse/clickhouse.py`.
-/

/-- An exception a collection method may raise: `QueryExecutionError`
(carrying its `source`) or any other exception. -/
inductive CheckException where
  | queryExecutionError (source : String) (message : String)
  | otherException (message : String)
deriving DecidableEq

/-- One entry of `self._collection_methods`: its `__name__` and the outcome
of invoking it (normal return or a raised exception). -/
structure CollectionMethod where
  name : String
  run : Except CheckException Unit

/-- The body of the `for` loop of `ClickhouseCheck.check`: invoke the method
inside `try`; the `except QueryExecutionError` arm and the generic
`except Exception` arm each log and `continue`, so no exception escapes the
iteration.  Returns the log entry the iteration emits, if any. -/
def tryCollect (m : CollectionMethod) : Except CheckException (Option String) :=
  match m.run with
  | .ok _ => .ok none
  | .error (.queryExecutionError src msg) =>
    .ok (some ("Error querying " ++ src ++ ": " ++ msg))
  | .error (.otherException msg) =>
    .ok (some ("Unexpected error running `" ++ m.name ++ "`: " ++ msg))

/-- `ClickhouseCheck.check`: run every collection method in order.  The
result records the methods actually invoked and the error log entries; an
`Except` error would model an exception propagating out of `check`. -/
def check : List CollectionMethod → Except CheckException (List String × List String)
  | [] => .ok ([], [])
  | m :: rest => do
    let logOpt ← tryCollect m
    let (names, logs) ← check rest
    pure (m.name :: names, logOpt.toList ++ logs)

/-- The log entry `ClickhouseCheck.check` emits for one collection method,
if any. -/
def checkLog (m : CollectionMethod) : Option String :=
  match m.run with
  | .ok _ => none
  | .error (.queryExecutionError src msg) =>
    some ("Error querying " ++ src ++ ": " ++ msg)
  | .error (.otherException msg) =>
    some ("Unexpected error running `" ++ m.name ++ "`: " ++ msg)

/-!
SHA-256 (FIPS 180-4), the model of Python `hashlib.sha256(...).hexdigest()`,
and `hash_password` from `clickhouse/tests/utils.py`.  32-bit words are
naturals reduced modulo 2^32.
-/

/-- Reduce modulo 2^32. -/
def m32 (x : Nat) : Nat := x % 4294967296

/-- Bitwise complement on 32 bits. -/
def bnot32 (x : Nat) : Nat := x ^^^ 4294967295

/-- Rotate a 32-bit word right by `n`. -/
def rotr (n x : Nat) : Nat := (x >>> n) ||| m32 (x <<< (32 - n))

/-- SHA-256 choice function. -/
def shaCh (x y z : Nat) : Nat := (x &&& y) ^^^ (bnot32 x &&& z)

/-- SHA-256 majority function. -/
def shaMaj (x y z : Nat) : Nat := (x &&& y) ^^^ (x &&& z) ^^^ (y &&& z)

/-- SHA-256 Σ0. -/
def bigSigma0 (x : Nat) : Nat := rotr 2 x ^^^ rotr 13 x ^^^ rotr 22 x

/-- SHA-256 Σ1. -/
def bigSigma1 (x : Nat) : Nat := rotr 6 x ^^^ rotr 11 x ^^^ rotr 25 x

/-- SHA-256 σ0. -/
def smallSigma0 (x : Nat) : Nat := rotr 7 x ^^^ rotr 18 x ^^^ (x >>> 3)

/-- SHA-256 σ1. -/
def smallSigma1 (x : Nat) : Nat := rotr 17 x ^^^ rotr 19 x ^^^ (x >>> 10)

/-- The 64 SHA-256 round constants. -/
def K256 : List Nat :=
  [1116352408, 1899447441, 3049323471, 3921009573,
   961987163, 1508970993, 2453635748, 2870763221,
   3624381080, 310598401, 607225278, 1426881987,
   1925078388, 2162078206, 2614888103, 3248222580,
   3835390401, 4022224774, 264347078, 604807628,
   770255983, 1249150122, 1555081692, 1996064986,
   2554220882, 2821834349, 2952996808, 3210313671,
   3336571891, 3584528711, 113926993, 338241895,
   666307205, 773529912, 1294757372, 1396182291,
   1695183700, 1986661051, 2177026350, 2456956037,
   2730485921, 2820302411, 3259730800, 3345764771,
   3516065817, 3600352804, 4094571909, 275423344,
   430227734, 506948616, 659060556, 883997877,
   958139571, 1322822218, 1537002063, 1747873779,
   1955562222, 2024104815, 2227730452, 2361852424,
   2428436474, 2756734187, 3204031479, 3329325298]

/-- Intermediate hash state: eight 32-bit working variables. -/
structure SHAState where
  a : Nat
  b : Nat
  c : Nat
  d : Nat
  e : Nat
  f : Nat
  g : Nat
  h : Nat

/-- The SHA-256 initial hash value. -/
def shaInit : SHAState :=
  ⟨1779033703, 3144134277, 1013904242, 2773480762,
   1359893119, 2600822924, 528734635, 1541459225⟩

/-- One SHA-256 round. -/
def shaRound (st : SHAState) (k w : Nat) : SHAState :=
  let t1 := m32 (st.h + bigSigma1 st.e + shaCh st.e st.f st.g + k + w)
  let t2 := m32 (bigSigma0 st.a + shaMaj st.a st.b st.c)
  ⟨m32 (t1 + t2), st.a, st.b, st.c, m32 (st.d + t1), st.e, st.f, st.g⟩

/-- Extend a 16-word block to the 64-word message schedule. -/
def extendW : Nat → List Nat → List Nat
  | 0, w => w
  | n + 1, w =>
    extendW n
      (w ++ [m32 (smallSigma1 (w.getD (w.length - 2) 0) + w.getD (w.length - 7) 0
        + smallSigma0 (w.getD (w.length - 15) 0) + w.getD (w.length - 16) 0)])

/-- Compress one 16-word block into the running hash state. -/
def processBlock (st : SHAState) (blockWords : List Nat) : SHAState :=
  let w := extendW 48 blockWords
  let r := (K256.zip w).foldl (fun s kw => shaRound s kw.1 kw.2) st
  ⟨m32 (st.a + r.a), m32 (st.b + r.b), m32 (st.c + r.c), m32 (st.d + r.d),
   m32 (st.e + r.e), m32 (st.f + r.f), m32 (st.g + r.g), m32 (st.h + r.h)⟩

/-- Group bytes into big-endian 32-bit words. -/
def toWords : List Nat → List Nat
  | b0 :: b1 :: b2 :: b3 :: rest =>
    (b0 * 16777216 + b1 * 65536 + b2 * 256 + b3) :: toWords rest
  | _ => []

/-- Group words into 16-word blocks. -/
def toBlocks : List Nat → List (List Nat)
  | w0 :: w1 :: w2 :: w3 :: w4 :: w5 :: w6 :: w7 :: w8 :: w9 :: w10 :: w11 ::
      w12 :: w13 :: w14 :: w15 :: rest =>
    [w0, w1, w2, w3, w4, w5, w6, w7, w8, w9, w10, w11, w12, w13, w14, w15]
      :: toBlocks rest
  | _ => []

/-- Number of zero bytes of SHA-256 padding for a message of `len` bytes. -/
def padZeros (len : Nat) : Nat := (119 - len % 64) % 64

/-- The eight-byte big-endian bit-length trailer of the padding. -/
def lenBytes (len : Nat) : List Nat :=
  let bits := (8 * len) % 18446744073709551616
  [bits >>> 56 % 256, bits >>> 48 % 256, bits >>> 40 % 256, bits >>> 32 % 256,
   bits >>> 24 % 256, bits >>> 16 % 256, bits >>> 8 % 256, bits % 256]

/-- Serialize a 32-bit word to four big-endian bytes. -/
def wordBytes (w : Nat) : List Nat :=
  [w >>> 24 % 256, w >>> 16 % 256, w >>> 8 % 256, w % 256]

/-- SHA-256 of a byte string: pad, compress every block, serialize the final
state to 32 bytes. -/
def sha256Bytes (msg : List Nat) : List Nat :=
  let padded := msg ++ 128 :: List.replicate (padZeros msg.length) 0 ++ lenBytes msg.length
  let final := (toBlocks (toWords padded)).foldl processBlock shaInit
  wordBytes final.a ++ wordBytes final.b ++ wordBytes final.c ++ wordBytes final.d
    ++ wordBytes final.e ++ wordBytes final.f ++ wordBytes final.g ++ wordBytes final.h

/-- One lowercase hexadecimal digit. -/
def hexChar (n : Nat) : Char :=
  if n < 10 then Char.ofNat (48 + n) else Char.ofNat (87 + n)

/-- Lowercase hexadecimal rendering of a byte string, two digits per byte. -/
def bytesToHex (bs : List Nat) : String :=
  String.mk (bs.flatMap fun b => [hexChar (b / 16 % 16), hexChar (b % 16)])

/-- Python `hashlib.sha256(data).hexdigest()`. -/
def sha256Hexdigest (msg : List Nat) : String := bytesToHex (sha256Bytes msg)

/-- UTF-8 encoding of one character. -/
def utf8EncodeChar (c : Char) : List Nat :=
  let n := c.toNat
  if n < 128 then [n]
  else if n < 2048 then [192 ||| (n >>> 6), 128 ||| (n &&& 63)]
  else if n < 65536 then
    [224 ||| (n >>> 12), 128 ||| ((n >>> 6) &&& 63), 128 ||| (n &&& 63)]
  else
    [240 ||| (n >>> 18), 128 ||| ((n >>> 12) &&& 63), 128 ||| ((n >>> 6) &&& 63),
     128 ||| (n &&& 63)]

/-- Python `s.encode('utf-8')` as a byte list. -/
def utf8Encode (s : String) : List Nat := s.toList.flatMap utf8EncodeChar

/-- `hash_password` from `clickhouse/tests/utils.py`: hex digest of the
UTF-8 encoded password, with a `'0'` prepended when the digest has odd
length. -/
def hash_password (password : String) : String :=
  let hexed := sha256Hexdigest (utf8Encode password)
  if hexed.length % 2 == 1 then "0" ++ hexed else hexed

/-!
Concrete fixtures mirroring the built-in templates exercised by
`test_template.py` (`tags/init_config`, `http/instances`) and the storage
layouts of its temporary-directory tests.
-/

/-- The `value` Mapping of the built-in `tags/init_config` template. -/
def tagsValueMapping : List (String × Node) :=
  [("example", .list [.str "<KEY_1>:<VALUE_1>", .str "<KEY_2>:<VALUE_2>"]),
   ("type", .str "array"),
   ("items", .mapping [("type", .str "string")])]

/-- The root Mapping of the built-in `tags/init_config` template. -/
def tagsMapping : List (String × Node) :=
  [("name", .str "tags"),
   ("value", .mapping tagsValueMapping),
   ("description", .str "A list of tags to attach to every metric and service check emitted by this integration.")]

/-- The built-in `tags/init_config` template document. -/
def tagsInitConfigNode : Node := .mapping tagsMapping

/-- A custom-directory `tags/init_config` document (`test:\n- foo\n- bar`). -/
def customTagsNode : Node := .mapping [("test", .list [.str "foo", .str "bar"])]

/-- The named elements of `proxy.value.properties` in `http/instances`. -/
def proxyPropertiesItems : List Node :=
  [.mapping [("name", .str "http"), ("value", .mapping [("type", .str "string")])]]

/-- The `skip_proxy` element of the `http/instances` template. -/
def skipProxyItem : Node :=
  .mapping [("name", .str "skip_proxy"),
    ("value", .mapping [("example", .bool false), ("type", .str "boolean")]),
    ("description", .str "Whether to skip the proxy.")]

/-- The `proxy` element of the `http/instances` template. -/
def proxyItem : Node :=
  .mapping [("name", .str "proxy"),
    ("value", .mapping [("type", .str "object"), ("properties", .list proxyPropertiesItems)]),
    ("description", .str "The proxy to use.")]

/-- The elements of the `http/instances` template, a List of named Mappings. -/
def httpInstancesItems : List Node := [skipProxyItem, proxyItem]

/-- A storage world holding a custom-directory `tags/init_config`, the two
built-in templates in the default directory, and an unparseable
`custom/invalid.yaml`. -/
def demoStorage : Storage := fun p =>
  if p = tplFilePath "custom" "tags/init_config" then some (.ok customTagsNode)
  else if p = tplFilePath defaultTemplatesDir "tags/init_config" then some (.ok tagsInitConfigNode)
  else if p = tplFilePath defaultTemplatesDir "http/instances" then
    some (.ok (.list httpInstancesItems))
  else if p = tplFilePath "custom" "invalid" then some (.error ())
  else none

/-- The storage world after `test_cache` rewrote the custom file with
unparseable content. -/
def corruptedStorage : Storage := fun p =>
  if p = tplFilePath "custom" "tags/init_config" then some (.error ()) else none

/-- A storage world with no files at all. -/
def emptyStorage : Storage := fun _ => none

/-! Helper lemmas. -/

theorem alistLookup_cons_self (k : String) (v : Node) (l : List (String × Node)) :
    alistLookup ((k, v) :: l) k = some v := by
  simp [alistLookup]

theorem setKey_append_of_lookup_none {m : List (String × Node)} {k : String} (v : Node)
    (h : alistLookup m k = none) : setKey m k v = m ++ [(k, v)] := by
  induction m with
  | nil => simp [setKey]
  | cons p rest ih =>
    obtain ⟨k', v'⟩ := p
    by_cases hk : k' = k
    · subst hk
      simp [alistLookup] at h
    · rw [alistLookup] at h
      simp only [if_neg hk] at h
      simp [setKey, hk, ih h]

theorem resolveGo_append {doc : String} {allB : List String} :
    ∀ {ys : List String} {c : List String} {node node' : Node},
      resolveGo doc allB c node ys = .ok node' →
      ∀ zs, resolveGo doc allB c node (ys ++ zs) = resolveGo doc allB (c ++ ys) node' zs := by
  intro ys
  induction ys with
  | nil =>
    intro c node node' h zs
    simp only [resolveGo] at h
    cases h
    simp
  | cons seg rest ih =>
    intro c node node' h zs
    cases node with
    | mapping m =>
      cases hL : alistLookup m seg with
      | none => simp [resolveGo, hL] at h
      | some child =>
        simp only [List.cons_append, resolveGo, hL, List.append_eq] at h ⊢
        rw [ih h zs]
        simp
    | list items =>
      cases hL : findNamed seg items with
      | none => simp [resolveGo, hL] at h
      | some child =>
        simp only [List.cons_append, resolveGo, hL, List.append_eq] at h ⊢
        rw [ih h zs]
        simp
    | str s => simp [resolveGo] at h
    | bool b => simp [resolveGo] at h
    | int i => simp [resolveGo] at h
    | null => simp [resolveGo] at h

theorem findNamedIdx_lt_length {seg : String} :
    ∀ {items : List Node} {i : Nat}, findNamedIdx seg items = some i → i < items.length := by
  intro items
  induction items with
  | nil => intro i h; simp [findNamedIdx] at h
  | cons x rest ih =>
    intro i h
    rw [findNamedIdx] at h
    by_cases hx : isNamed seg x
    · rw [if_pos hx] at h
      cases h
      simp
    · rw [if_neg hx] at h
      cases hr : findNamedIdx seg rest with
      | none => rw [hr] at h; cases h
      | some j =>
        rw [hr] at h
        cases h
        have := ih hr
        simp only [List.length_cons]
        omega

theorem findTemplate_append_of_some {fs : Storage} {doc : String}
    {r : String × Except Unit Node} :
    ∀ {ps : List String}, findTemplate fs doc ps = some r →
      ∀ qs, findTemplate fs doc (ps ++ qs) = some r := by
  intro ps
  induction ps with
  | nil => intro h; simp [findTemplate] at h
  | cons d rest ih =>
    intro h qs
    cases hd : fs (tplFilePath d doc) with
    | none =>
      simp only [List.cons_append, findTemplate, hd] at h ⊢
      exact ih h qs
    | some content =>
      simp only [List.cons_append, findTemplate, hd] at h ⊢
      exact h

theorem findTemplate_none_of_all {fs : Storage} {doc : String} :
    ∀ {ps : List String}, (∀ d ∈ ps, fs (tplFilePath d doc) = none) →
      findTemplate fs doc ps = none := by
  intro ps
  induction ps with
  | nil => intro _; rfl
  | cons d rest ih =>
    intro h
    rw [findTemplate, h d (by simp)]
    exact ih fun d' hd' => h d' (by simp [hd'])

theorem flatMap_pair_length {α β : Type} (f g : α → β) (bs : List α) :
    (bs.flatMap fun b => [f b, g b]).length = 2 * bs.length := by
  induction bs with
  | nil => rfl
  | cons b rest ih => simp [List.flatMap_cons, ih]; omega

theorem bytesToHex_length (bs : List Nat) : (bytesToHex bs).length = 2 * bs.length := by
  have : (bytesToHex bs).length = (bs.flatMap fun b => [hexChar (b / 16 % 16), hexChar (b % 16)]).length := rfl
  rw [this, flatMap_pair_length]

theorem sha256Bytes_length (msg : List Nat) : (sha256Bytes msg).length = 32 := by
  simp [sha256Bytes, wordBytes]

theorem exceptOkBind {ε α β : Type} (a : α) (f : α → Except ε β) :
    (Except.ok a : Except ε α) >>= f = f a := rfl

/-! Claim theorems. -/

/-- Claim C9: for every run of `ClickhouseCheck.check`, when a collection
method raises (a `QueryExecutionError` or any other exception) the check
logs the error and continues: every collection method is invoked in order
regardless of earlier failures, each failing method contributes exactly its
log entry, and `check` never propagates a failure to its caller (the result
is always `.ok`). -/
theorem check_logs_and_continues (ms : List CollectionMethod) :
    check ms = .ok (ms.map CollectionMethod.name, ms.filterMap checkLog) := by
  induction ms with
  | nil => rfl
  | cons m rest ih =>
    cases hm : m.run with
    | ok u => simp [check, tryCollect, checkLog, hm, ih, exceptOkBind, Option.toList]
    | error e =>
      cases e with
      | queryExecutionError src msg =>
        simp [check, tryCollect, checkLog, hm, ih, exceptOkBind, Option.toList]
      | otherException msg =>
        simp [check, tryCollect, checkLog, hm, ih, exceptOkBind, Option.toList]

/-- Claim C10: for every string, `hash_password` returns the SHA-256
hexadecimal digest of the UTF-8 encoding of the input, which is always
exactly 64 characters (even length), so the odd-length branch prepending
`'0'` is unreachable and the function equals plain
`sha256(...).hexdigest()`. -/
theorem hash_password_eq_sha256_hexdigest (s : String) :
    hash_password s = sha256Hexdigest (utf8Encode s) ∧ (hash_password s).length = 64 := by
  have hlen : (sha256Hexdigest (utf8Encode s)).length = 64 := by
    rw [sha256Hexdigest, bytesToHex_length, sha256Bytes_length]
  have heq : hash_password s = sha256Hexdigest (utf8Encode s) := by
    rw [hash_password, hlen]
    simp
  exact ⟨heq, by rw [heq, hlen]⟩

/-- Claim C2: an override whose intermediate path segment is an absent key
of a Mapping creates that key as a nested Mapping holding the terminal
value, keeping the original entries unchanged (`foo.bar := v` on a root
lacking `foo` appends `foo ↦ {bar: v}`); on a List node an absent name is
an error, never a creation. -/
theorem apply_overrides_mapping_create_nested (m : List (String × Node)) (k1 k2 : String)
    (v : Node) (h : alistLookup m k1 = none) :
    applyGo [] (.mapping m) [k1, k2] v =
      .ok (.mapping (m ++ [(k1, .mapping [(k2, v)])])) ∧
      ∀ items : List Node, findNamedIdx k1 items = none →
        ∃ msg, applyGo [] (.list items) [k1, k2] v = .error (.overrideNotFound msg) := by
  constructor
  · simp [applyGo, h, setKey, setKey_append_of_lookup_none _ h]
  · intro items hnone
    refine ⟨ovListMsg [] k1, ?_⟩
    simp [applyGo, hnone]

/-- Claim C2 witness: `test_mapping_create_nested` on the `tags/init_config`
root and the List part on `http/instances`. -/
theorem apply_overrides_mapping_create_nested_witness :
    alistLookup tagsMapping "foo" = none ∧
    applyGo [] (.mapping tagsMapping) ["foo", "bar"] (.str "foobar") =
      .ok (.mapping (tagsMapping ++ [("foo", .mapping [("bar", .str "foobar")])])) ∧
    findNamedIdx "foo" httpInstancesItems = none ∧
    ∃ msg, applyGo [] (.list httpInstancesItems) ["foo", "bar"] (.str "foobar") =
      .error (.overrideNotFound msg) :=
  ⟨rfl,
   (apply_overrides_mapping_create_nested tagsMapping "foo" "bar" (.str "foobar") rfl).1,
   rfl,
   (apply_overrides_mapping_create_nested tagsMapping "foo" "bar" (.str "foobar") rfl).2
     httpInstancesItems rfl⟩

/-- Claim C3: an override whose terminal segment names an element of a List
replaces that element wholesale at the same index, leaving every other
index unchanged, and the override value may be a plain primitive. -/
theorem apply_overrides_list_replace (items : List Node) (seg : String) (i : Nat) (v : Node)
    (h : findNamedIdx seg items = some i) :
    applyGo [] (.list items) [seg] v = .ok (.list (items.set i v)) ∧
      i < items.length ∧ (items.set i v)[i]? = some v ∧
      ∀ j, j ≠ i → (items.set i v)[j]? = items[j]? := by
  have hlt := findNamedIdx_lt_length h
  refine ⟨by simp [applyGo, h], hlt, ?_, ?_⟩
  · exact List.getElem?_set_eq_of_lt v hlt
  · intro j hj
    exact List.getElem?_set_ne (Ne.symm hj)

/-- Claim C3 witness: `test_list_replace` — overriding `skip_proxy` of
`http/instances` with the primitive `"foobar"` replaces the element at its
index. -/
theorem apply_overrides_list_replace_witness :
    findNamedIdx "skip_proxy" httpInstancesItems = some 0 ∧
    applyGo [] (.list httpInstancesItems) ["skip_proxy"] (.str "foobar") =
      .ok (.list [.str "foobar", proxyItem]) :=
  ⟨rfl,
   (apply_overrides_list_replace httpInstancesItems "skip_proxy" 0 (.str "foobar") rfl).1⟩

/-- Claim C7: an override navigation hitting a List where the segment
matches no element's `name` fails with `OverrideNotFoundError`; the nested
variant names the dotted path consumed so far, the root-level variant omits
the prefix. -/
theorem override_list_not_found_message (c : List String) (items : List Node) (seg : String)
    (rest : List String) (v : Node) (h : findNamedIdx seg items = none) :
    applyGo c (.list items) (seg :: rest) v =
      .error (.overrideNotFound
        (if c.isEmpty then "Template override has no named mapping `" ++ seg ++ "`"
         else "Template override `" ++ joinDot c ++ "` has no named mapping `" ++ seg ++ "`")) := by
  cases rest with
  | nil => simp [applyGo, h, ovListMsg]
  | cons r rs => simp [applyGo, h, ovListMsg]

/-- Claim C7 witness: `test_list_not_found_root` and `test_list_not_found`
message strings on the `http/instances` fixtures. -/
theorem override_list_not_found_message_witness :
    findNamedIdx "foo" httpInstancesItems = none ∧
    applyGo [] (.list httpInstancesItems) ["foo"] (.str "bar") =
      .error (.overrideNotFound "Template override has no named mapping `foo`") ∧
    findNamedIdx "foo" proxyPropertiesItems = none ∧
    applyGo ["proxy", "value", "properties"] (.list proxyPropertiesItems) ["foo", "foo"]
        (.str "bar") =
      .error (.overrideNotFound
        "Template override `proxy.value.properties` has no named mapping `foo`") :=
  ⟨rfl,
   override_list_not_found_message [] httpInstancesItems "foo" [] (.str "bar") rfl,
   rfl,
   override_list_not_found_message ["proxy", "value", "properties"] proxyPropertiesItems
     "foo" ["foo"] (.str "bar") rfl⟩

/-- Claim C5: when navigation reaches a Mapping whose next segment is not a
present key, resolution fails with `PathNotFoundError` naming the document
path consumed by document loading and the remaining dotted suffix, with
message `Template <doc> has no element <suffix>` (backquotes around both). -/
theorem resolve_mapping_missing_message (doc : String) (node : Node) (ys rest : List String)
    (k : String) (m : List (String × Node))
    (hwalk : resolveGo doc (ys ++ k :: rest) [] node ys = .ok (.mapping m))
    (hmiss : alistLookup m k = none) :
    resolveDoc doc node (ys ++ k :: rest) =
      .error (.pathNotFound ("Template `" ++ doc ++ "` has no element `"
        ++ joinDot (ys ++ k :: rest) ++ "`")) := by
  rw [resolveDoc, resolveGo_append hwalk]
  simp [resolveGo, hmiss]

/-- Claim C5 witness: `test_mapping_not_found` — loading
`tags/init_config.value.foo` fails with
`Template `tags/init_config` has no element `value.foo``. -/
theorem resolve_mapping_missing_message_witness :
    resolveGo "tags/init_config" ["value", "foo"] [] tagsInitConfigNode ["value"] =
      .ok (.mapping tagsValueMapping) ∧
    alistLookup tagsValueMapping "foo" = none ∧
    resolveDoc "tags/init_config" tagsInitConfigNode ["value", "foo"] =
      .error (.pathNotFound "Template `tags/init_config` has no element `value.foo`") :=
  ⟨rfl, rfl,
   resolve_mapping_missing_message "tags/init_config" tagsInitConfigNode ["value"] []
     "foo" tagsValueMapping rfl rfl⟩

/-- Claim C6: when navigation reaches a Primitive while segments remain,
resolution fails with `PathNotFoundError` whose message says the consumed
path does not refer to a mapping, rather it is type `<type>`, where
`<type>` is the primitive's runtime type label. -/
theorem resolve_primitive_message (doc : String) (node p : Node) (ys rest : List String)
    (k : String)
    (hwalk : resolveGo doc (ys ++ k :: rest) [] node ys = .ok p)
    (hprim : isPrimitive p = true) :
    resolveDoc doc node (ys ++ k :: rest) =
      .error (.pathNotFound ("Template `" ++ joinDot (doc :: ys)
        ++ "` does not refer to a mapping, rather it is type `" ++ typeName p ++ "`")) := by
  rw [resolveDoc, resolveGo_append hwalk]
  cases p with
  | mapping m => simp [isPrimitive] at hprim
  | list items => simp [isPrimitive] at hprim
  | str s => simp [resolveGo]
  | bool b => simp [resolveGo]
  | int i => simp [resolveGo]
  | null => simp [resolveGo]

/-- Claim C6 witness: `test_primitive_recurse` — navigating past the boolean
`http/instances.skip_proxy.value.example` reports type `bool`. -/
theorem resolve_primitive_message_witness :
    resolveGo "http/instances" ["skip_proxy", "value", "example", "foo"] []
        (.list httpInstancesItems) ["skip_proxy", "value", "example"] = .ok (.bool false) ∧
    isPrimitive (.bool false) = true ∧
    resolveDoc "http/instances" (.list httpInstancesItems)
        ["skip_proxy", "value", "example", "foo"] =
      .error (.pathNotFound
        "Template `http/instances.skip_proxy.value.example` does not refer to a mapping, rather it is type `bool`") :=
  ⟨rfl, rfl,
   resolve_primitive_message "http/instances" (.list httpInstancesItems) (.bool false)
     ["skip_proxy", "value", "example"] [] "foo" rfl rfl⟩

/-- Claim C4: when the first path segment names a resource present (and
parseable) in the caller-supplied custom directories, `load` returns the
document parsed from the custom directory — the built-in default directory
is never reached because search directories are tried in priority order,
custom directories first, default last. -/
theorem load_custom_path_precedence (customs : List String) (fs : Storage) (doc fp : String)
    (n : Node)
    (hsplit : splitOnDot doc = [doc])
    (hfind : findTemplate fs doc customs = some (fp, .ok n)) :
    (load (mkConfigTemplates customs) fs doc []).1 = .ok n ∧
      (mkConfigTemplates customs).paths = customs ++ [defaultTemplatesDir] := by
  refine ⟨?_, rfl⟩
  have hall : findTemplate fs doc (customs ++ [defaultTemplatesDir]) = some (fp, .ok n) :=
    findTemplate_append_of_some hfind [defaultTemplatesDir]
  simp [load, hsplit, mkConfigTemplates, alistLookup, hall, loadResolve, resolveDoc,
    resolveGo, apply_overrides]

/-- Claim C4 witness: `test_custom_path_precedence` — `custom` holds
`tags/init_config` with different content than the default directory, and
`load` returns the custom version. -/
theorem load_custom_path_precedence_witness :
    findTemplate demoStorage "tags/init_config" ["custom"] =
      some (tplFilePath "custom" "tags/init_config", .ok customTagsNode) ∧
    demoStorage (tplFilePath defaultTemplatesDir "tags/init_config") =
      some (.ok tagsInitConfigNode) ∧
    (load (mkConfigTemplates ["custom"]) demoStorage "tags/init_config" []).1 =
      .ok customTagsNode ∧
    customTagsNode ≠ tagsInitConfigNode :=
  ⟨rfl, rfl,
   (load_custom_path_precedence ["custom"] demoStorage "tags/init_config"
     (tplFilePath "custom" "tags/init_config") customTagsNode rfl rfl).1,
   by simp [customTagsNode, tagsInitConfigNode, tagsMapping]⟩

/-- Claim C8: a load whose first segment exists in none of the search
directories fails with `TemplateNotFoundError` (returned directly to the
caller, no retry); a resource that exists but cannot be parsed into a
mapping-rooted tree fails with `TemplateParseError` whose message includes
the resolved resource path. -/
theorem load_missing_and_parse_errors (ct : ConfigTemplates) (fs : Storage) (path doc : String)
    (bs : List String) (ovs : List (String × Node))
    (hsplit : splitOnDot path = doc :: bs)
    (hcache : alistLookup ct.templates doc = none) :
    ((∀ d ∈ ct.paths, fs (tplFilePath d doc) = none) →
      (load ct fs path ovs).1 =
        .error (.templateNotFound ("Template `" ++ doc ++ "` does not exist"))) ∧
      ∀ fp, findTemplate fs doc ct.paths = some (fp, .error ()) →
        (load ct fs path ovs).1 =
          .error (.templateParse ("Unable to parse template `" ++ fp ++ "`")) := by
  constructor
  · intro hall
    have hnone := findTemplate_none_of_all hall
    simp [load, hsplit, hcache, hnone]
  · intro fp hfp
    simp [load, hsplit, hcache, hfp]

/-- Claim C8 witness: `test_unknown_template` and `test_parse_error` — an
absent `unknown` template and an unparseable `custom/invalid.yaml`. -/
theorem load_missing_and_parse_errors_witness :
    splitOnDot "unknown" = ["unknown"] ∧
    (load (mkConfigTemplates []) emptyStorage "unknown" []).1 =
      .error (.templateNotFound "Template `unknown` does not exist") ∧
    findTemplate demoStorage "invalid" (mkConfigTemplates ["custom"]).paths =
      some ("custom/invalid.yaml", .error ()) ∧
    (load (mkConfigTemplates ["custom"]) demoStorage "invalid" []).1 =
      .error (.templateParse "Unable to parse template `custom/invalid.yaml`") :=
  ⟨rfl,
   (load_missing_and_parse_errors (mkConfigTemplates []) emptyStorage "unknown" "unknown"
     [] [] rfl rfl).1 (fun _ _ => rfl),
   rfl,
   (load_missing_and_parse_errors (mkConfigTemplates ["custom"]) demoStorage "invalid"
     "invalid" [] [] rfl rfl).2 "custom/invalid.yaml" rfl⟩

/-- Claim C1: cache stability — when `load path` succeeds on a resolver
state, calling `load path` again on the resulting state returns a
structurally equal result and leaves the state unchanged, for an arbitrary
second storage world: the second call serves the cached Node without
touching storage, even if the backing resource changed on disk in between. -/
theorem load_cache_stable (ct : ConfigTemplates) (fs1 fs2 : Storage) (path : String)
    (ovs : List (String × Node)) (v : Node) (ct' : ConfigTemplates)
    (h : load ct fs1 path ovs = (.ok v, ct')) :
    load ct' fs2 path ovs = (.ok v, ct') := by
  rw [load] at h ⊢
  cases hs : splitOnDot path with
  | nil => simp only [hs] at h; simp at h
  | cons doc branches =>
    simp only [hs] at h ⊢
    cases hc : alistLookup ct.templates doc with
    | some node =>
      simp only [hc, Prod.mk.injEq] at h
      obtain ⟨h1, h2⟩ := h
      subst h2
      simp only [hc, h1]
    | none =>
      simp only [hc] at h
      cases hf : findTemplate fs1 doc ct.paths with
      | none => simp only [hf] at h; simp at h
      | some pr =>
        obtain ⟨fp, content⟩ := pr
        cases content with
        | error u => simp only [hf] at h; simp at h
        | ok node =>
          simp only [hf, Prod.mk.injEq] at h
          obtain ⟨h1, h2⟩ := h
          subst h2
          simp only [alistLookup_cons_self, h1]

/-- Claim C1 witness: `test_cache` — load `tags/init_config` from the
custom directory, rewrite the file on disk with unparseable content, and
the second load still returns the originally cached document with the
resolver state unchanged. -/
theorem load_cache_stable_witness :
    load (mkConfigTemplates ["custom"]) demoStorage "tags/init_config" [] =
      (.ok customTagsNode,
        ⟨["custom", defaultTemplatesDir], [("tags/init_config", customTagsNode)]⟩) ∧
    load ⟨["custom", defaultTemplatesDir], [("tags/init_config", customTagsNode)]⟩
        corruptedStorage "tags/init_config" [] =
      (.ok customTagsNode,
        ⟨["custom", defaultTemplatesDir], [("tags/init_config", customTagsNode)]⟩) :=
  ⟨rfl,
   load_cache_stable (mkConfigTemplates ["custom"]) demoStorage corruptedStorage
     "tags/init_config" [] customTagsNode
     ⟨["custom", defaultTemplatesDir], [("tags/init_config", customTagsNode)]⟩ rfl⟩
